import Mathlib

/-
Verification of the SilentStream icon-conversion script
(scripts/process_icons.py).

The script checks for a fixed source file NEW-updated.png, loads it with
the imaging library, saves a multi-resolution ICO (sizes 16..256), then
saves a 256x256 Lanczos-resized PNG, all inside one broad try/except that
prints "Error processing image: <e>" on any failure.

Shallow embedding: the filesystem is an association list from path to
file data; the external imaging library (PIL) is an oracle structure
whose fields decide the outcome of each decode/encode/resize call, so
theorems quantify over every possible library behaviour.  The run is a
pure state-passing function that also records an event trace (existence
check, open, save attempts, resize call) so that claims about which
operations are attempted can be stated.
-/

/-- A decoded raster image: width, height in pixels and an abstract
identifier for the pixel buffer contents. -/
structure Image where
  width : Nat
  height : Nat
  pix : Nat
deriving DecidableEq, Repr

/-- A resampling filter, mirroring PIL Image.Resampling members; the
script uses LANCZOS. -/
inductive ResampleFilter where
  | nearest
  | box
  | bilinear
  | hamming
  | bicubic
  | lanczos
deriving DecidableEq, Repr

/-- Contents of a file on disk: raw bytes (the source PNG as stored), an
ICO container rendering a source image at a list of frame sizes, or a
PNG holding one image. -/
inductive FileData where
  | raw (bytes : List Nat)
  | ico (src : Image) (sizes : List (Nat × Nat))
  | png (img : Image)
deriving DecidableEq, Repr

/-- The working directory: an association list from path to file data;
the most recent write for a path shadows older entries. -/
abbrev FS := List (String × FileData)

/-- Look up the current contents of a path. -/
def lookupFS : FS → String → Option FileData
  | [], _ => none
  | (q, d) :: rest, p => if p = q then some d else lookupFS rest p

/-- Write a file, silently overwriting any existing file at that path. -/
def writeFS (fs : FS) (p : String) (d : FileData) : FS :=
  (p, d) :: fs

/-- Oracle for the external imaging library: decides how each
decode/encode/resize call behaves.  Theorems quantify over all oracles,
so they hold for every possible library behaviour, including every way a
call can raise.  A successful resize returns an image of exactly the
requested dimensions (the library's documented resize contract); the
oracle chooses its pixel contents and whether the call raises. -/
structure PILOracle where
  decode : FileData → Except String Image
  icoEncode : Image → List (Nat × Nat) → Except String Unit
  resizeExc : Image → Nat → Nat → ResampleFilter → Option String
  resample : Image → Nat → Nat → ResampleFilter → Nat
  pngEncode : Image → Except String Unit

/-- The library resize call img.resize((w, h), f): either raises, or
returns a fresh image of exactly the requested size whose pixel contents
are produced by the oracle's resampling function.  The argument image is
not modified. -/
def pilResize (o : PILOracle) (img : Image) (w h : Nat) (f : ResampleFilter) :
    Except String Image :=
  match o.resizeExc img w h f with
  | some e => Except.error e
  | none => Except.ok { width := w, height := h, pix := o.resample img w h f }

/-- Observable events of one run: the existence check on the source, the
load attempt, each save attempt and the resize call.  An attempt is
recorded when the call is made, whether or not it succeeds. -/
inductive Event where
  | existsCheck (path : String) (result : Bool)
  | openImage (path : String)
  | saveIco (path : String) (sizes : List (Nat × Nat))
  | resizeCall (w : Nat) (h : Nat) (f : ResampleFilter)
  | savePng (path : String)
deriving DecidableEq, Repr

/-- State of one run: current filesystem, console lines printed so far,
and the events so far. -/
structure St where
  fs : FS
  output : List String
  events : List Event
deriving DecidableEq, Repr

/-- icon_sizes from the script: the fixed ordered list of ICO frame
sizes. -/
def icon_sizes : List (Nat × Nat) :=
  [(16, 16), (32, 32), (48, 48), (64, 64), (128, 128), (256, 256)]

/-- State at entry to the try block, after the existence check
succeeded: nothing printed yet, no file touched. -/
def initSt (fs : FS) : St :=
  { fs := fs, output := [], events := [Event.existsCheck "NEW-updated.png" true] }

/-- The try block of process_icons (script lines 10-25): open the image,
save the ICO with the six fixed sizes, print, resize to 256x256 with
LANCZOS, save the PNG, print.  A raised error carries the error text and
the partial state at the raise point (earlier prints and writes
stand). -/
def tryBlock (o : PILOracle) (s0 : St) (fd : FileData) :
    Except (String × St) St :=
  let s1 : St := { s0 with events := s0.events ++ [Event.openImage "NEW-updated.png"] }
  match o.decode fd with
  | Except.error e => Except.error (e, s1)
  | Except.ok img =>
    let s2 : St := { s1 with events := s1.events ++ [Event.saveIco "app_icon.ico" icon_sizes] }
    match o.icoEncode img icon_sizes with
    | Except.error e => Except.error (e, s2)
    | Except.ok _ =>
      let s3 : St :=
        { s2 with
          fs := writeFS s2.fs "app_icon.ico" (FileData.ico img icon_sizes)
          output := s2.output ++ ["Generated app_icon.ico"] }
      let s4 : St := { s3 with events := s3.events ++ [Event.resizeCall 256 256 ResampleFilter.lanczos] }
      match pilResize o img 256 256 ResampleFilter.lanczos with
      | Except.error e => Except.error (e, s4)
      | Except.ok imgResized =>
        let s5 : St := { s4 with events := s4.events ++ [Event.savePng "icon_256.png"] }
        match o.pngEncode imgResized with
        | Except.error e => Except.error (e, s5)
        | Except.ok _ =>
          Except.ok
            { s5 with
              fs := writeFS s5.fs "icon_256.png" (FileData.png imgResized)
              output := s5.output ++ ["Generated icon_256.png"] }

/-- process_icons (script lines 4-28): if the fixed source path does not
exist, print the missing-file message and return; otherwise run the try
block, and on a raised error append the catch-all message to whatever
was already printed. -/
def process_icons (o : PILOracle) (fs : FS) : St :=
  match lookupFS fs "NEW-updated.png" with
  | none =>
    { fs := fs
      output := ["Error: NEW-updated.png not found."]
      events := [Event.existsCheck "NEW-updated.png" false] }
  | some fd =>
    match tryBlock o (initSt fs) fd with
    | Except.ok s => s
    | Except.error (e, s) => { s with output := s.output ++ ["Error processing image: " ++ e] }

/-- The module-level entry (script lines 30-31): calls process_icons;
an exception escaping it would make the process exit nonzero, but
process_icons catches every library error, so the run always completes
normally. -/
def script_run (o : PILOracle) (fs : FS) : Except String St :=
  Except.ok (process_icons o fs)

/-- Process exit status: 0 when no exception escaped, 1 otherwise. -/
def exitCode : Except String St → Nat
  | Except.ok _ => 0
  | Except.error _ => 1

/-- The image the run loaded, when the source exists and decoding
succeeds. -/
def loadedImage (o : PILOracle) (fs : FS) : Option Image :=
  match lookupFS fs "NEW-updated.png" with
  | none => none
  | some fd => (o.decode fd).toOption

/-- A sample decoded source image (large, non-square). -/
def sampleImage : Image := { width := 800, height := 600, pix := 7 }

/-- An oracle on which every library call succeeds. -/
def okOracle : PILOracle where
  decode := fun _ => Except.ok sampleImage
  icoEncode := fun _ _ => Except.ok ()
  resizeExc := fun _ _ _ _ => none
  resample := fun img w h _ => img.pix + w + h
  pngEncode := fun _ => Except.ok ()

/-- A working directory holding only the source file. -/
def fs0 : FS := [("NEW-updated.png", FileData.raw [1, 2, 3])]

/-- An oracle whose ICO encoder raises (for example, a disk write
failure while saving app_icon.ico). -/
def icoFailOracle : PILOracle :=
  { okOracle with icoEncode := fun _ _ => Except.error "disk full" }

/-- An oracle whose decoder raises (for example, a corrupt source
file). -/
def decodeFailOracle : PILOracle :=
  { okOracle with decode := fun _ => Except.error "cannot identify image file" }

/-- An oracle that decodes the source to a small 10x10 image, with every
call succeeding. -/
def smallOracle : PILOracle :=
  { okOracle with decode := fun _ => Except.ok { width := 10, height := 10, pix := 3 } }

/-- Looking up the path just written returns the new contents. -/
theorem lookup_write_eq (fs : FS) (p : String) (d : FileData) :
    lookupFS (writeFS fs p d) p = some d := by
  simp [writeFS, lookupFS]

/-- Writing one path leaves every other path unchanged. -/
theorem lookup_write_ne (fs : FS) (p q : String) (d : FileData) (h : q ≠ p) :
    lookupFS (writeFS fs p d) q = lookupFS fs q := by
  simp [writeFS, lookupFS, h]

theorem src_ne_ico : ("NEW-updated.png" : String) ≠ "app_icon.ico" := by decide

theorem src_ne_png : ("NEW-updated.png" : String) ≠ "icon_256.png" := by decide

theorem ico_ne_png : ("app_icon.ico" : String) ≠ "icon_256.png" := by decide

theorem png_ne_ico : ("icon_256.png" : String) ≠ "app_icon.ico" := by decide

/-- Frame helper: a run changes the filesystem at most at the two output
paths. -/
theorem frame_aux (o : PILOracle) (fs : FS) (p : String)
    (h1 : p ≠ "app_icon.ico") (h2 : p ≠ "icon_256.png") :
    lookupFS (process_icons o fs).fs p = lookupFS fs p := by
  rcases hs : lookupFS fs "NEW-updated.png" with _ | fd
  · simp [process_icons, hs]
  · rcases hd : o.decode fd with e | img
    · simp [process_icons, tryBlock, initSt, hs, hd]
    · rcases hi : o.icoEncode img icon_sizes with e | u
      · simp [process_icons, tryBlock, initSt, hs, hd, hi]
      · rcases hr : pilResize o img 256 256 ResampleFilter.lanczos with e | imgR
        · simp [process_icons, tryBlock, initSt, hs, hd, hi, hr,
                lookup_write_ne _ _ _ _ h1]
        · rcases hp : o.pngEncode imgR with e | u2
          · simp [process_icons, tryBlock, initSt, hs, hd, hi, hr, hp,
                  lookup_write_ne _ _ _ _ h1]
          · simp [process_icons, tryBlock, initSt, hs, hd, hi, hr, hp,
                  lookup_write_ne _ _ _ _ h1, lookup_write_ne _ _ _ _ h2]

/-- Claim C3: when no file exists at the fixed path NEW-updated.png, the
run prints exactly the message Error: NEW-updated.png not found., writes
no file, attempts no load (the existence check is the only event), and
returns normally with no exception reaching the caller. -/
theorem missing_source_reports_and_stops (o : PILOracle) (fs : FS)
    (h : lookupFS fs "NEW-updated.png" = none) :
    process_icons o fs =
      { fs := fs
        output := ["Error: NEW-updated.png not found."]
        events := [Event.existsCheck "NEW-updated.png" false] } ∧
    Event.openImage "NEW-updated.png" ∉ (process_icons o fs).events ∧
    script_run o fs = Except.ok (process_icons o fs) := by
  have h0 : process_icons o fs =
      { fs := fs
        output := ["Error: NEW-updated.png not found."]
        events := [Event.existsCheck "NEW-updated.png" false] } := by
    simp [process_icons, h]
  refine ⟨h0, ?_, rfl⟩
  rw [h0]
  simp

/-- Claim C3 witness: the empty working directory has no source file,
and the run on it behaves as claim C3 states. -/
theorem missing_source_reports_and_stops_witness :
    lookupFS ([] : FS) "NEW-updated.png" = none ∧
    (process_icons okOracle [] =
      { fs := []
        output := ["Error: NEW-updated.png not found."]
        events := [Event.existsCheck "NEW-updated.png" false] } ∧
    Event.openImage "NEW-updated.png" ∉ (process_icons okOracle []).events ∧
    script_run okOracle [] = Except.ok (process_icons okOracle [])) :=
  ⟨rfl, missing_source_reports_and_stops okOracle [] rfl⟩

/-- Claim C7: the process exit status is 0 on every run, whatever the
working directory holds and however the library behaves; failures only
show up as printed text. -/
theorem exit_status_always_success (o : PILOracle) (fs : FS) :
    exitCode (script_run o fs) = 0 := rfl

/-- Claim C5: when the source image is not successfully loaded (missing
file or failing decode), the run leaves the filesystem untouched and
attempts no save of either output. -/
theorem no_outputs_without_load (o : PILOracle) (fs : FS)
    (h : loadedImage o fs = none) :
    (process_icons o fs).fs = fs ∧
    (∀ p sz, Event.saveIco p sz ∉ (process_icons o fs).events) ∧
    (∀ p, Event.savePng p ∉ (process_icons o fs).events) := by
  unfold loadedImage at h
  rcases hs : lookupFS fs "NEW-updated.png" with _ | fd
  · simp [process_icons, hs]
  · simp only [hs] at h
    rcases hd : o.decode fd with e | img
    · simp [process_icons, tryBlock, initSt, hs, hd]
    · simp [hd, Except.toOption] at h

/-- Claim C5 witness: with a corrupt source (decoder raises) the load
result is none and the run writes nothing and attempts no save. -/
theorem no_outputs_without_load_witness :
    loadedImage decodeFailOracle fs0 = none ∧
    ((process_icons decodeFailOracle fs0).fs = fs0 ∧
    (∀ p sz, Event.saveIco p sz ∉ (process_icons decodeFailOracle fs0).events) ∧
    (∀ p, Event.savePng p ∉ (process_icons decodeFailOracle fs0).events)) :=
  ⟨rfl, no_outputs_without_load decodeFailOracle fs0 rfl⟩

/-- Claim C9: the run only ever writes app_icon.ico and icon_256.png;
every other path, in particular the source NEW-updated.png, is left
exactly as it was, so the source is only read, never written, modified
or deleted. -/
theorem only_outputs_written (o : PILOracle) (fs : FS) (p : String)
    (h1 : p ≠ "app_icon.ico") (h2 : p ≠ "icon_256.png") :
    lookupFS (process_icons o fs).fs p = lookupFS fs p ∧
    lookupFS (process_icons o fs).fs "NEW-updated.png" =
      lookupFS fs "NEW-updated.png" :=
  ⟨frame_aux o fs p h1 h2, frame_aux o fs "NEW-updated.png" src_ne_ico src_ne_png⟩

/-- Claim C9 witness: on a full successful run, an unrelated path and
the source path are untouched. -/
theorem only_outputs_written_witness :
    ("notes.txt" : String) ≠ "app_icon.ico" ∧ ("notes.txt" : String) ≠ "icon_256.png" ∧
    (lookupFS (process_icons okOracle fs0).fs "notes.txt" = lookupFS fs0 "notes.txt" ∧
    lookupFS (process_icons okOracle fs0).fs "NEW-updated.png" =
      lookupFS fs0 "NEW-updated.png") :=
  ⟨by decide, by decide,
    only_outputs_written okOracle fs0 "notes.txt" (by decide) (by decide)⟩

/-- Claim C6 counterexample: with a source that loads fine but an ICO
encoder that raises (disk full while saving app_icon.ico), the ICO step
fails and the run does NOT attempt the PNG: no resize call, no PNG save
attempt, no icon_256.png on disk — the shared catch block is entered
instead.  This refutes the claim that a failure producing the ICO still
attempts icon_256.png. -/
theorem ico_failure_skips_png_counterexample :
    (process_icons icoFailOracle fs0).output = ["Error processing image: disk full"] ∧
    lookupFS (process_icons icoFailOracle fs0).fs "app_icon.ico" = none ∧
    Event.resizeCall 256 256 ResampleFilter.lanczos ∉ (process_icons icoFailOracle fs0).events ∧
    Event.savePng "icon_256.png" ∉ (process_icons icoFailOracle fs0).events ∧
    lookupFS (process_icons icoFailOracle fs0).fs "icon_256.png" = none := by
  decide

/-- Claim C6 as amended: when producing app_icon.ico fails, the shared
catch block swallows the error, so the run does not attempt icon_256.png
at all: no resize call, no PNG save attempt, the filesystem is left
unchanged, and the only console line is the catch-all error message. -/
theorem ico_failure_skips_png (o : PILOracle) (fs : FS) (fd : FileData)
    (img : Image) (e : String)
    (hfd : lookupFS fs "NEW-updated.png" = some fd)
    (hdec : o.decode fd = Except.ok img)
    (hico : o.icoEncode img icon_sizes = Except.error e) :
    (process_icons o fs).output = ["Error processing image: " ++ e] ∧
    (process_icons o fs).fs = fs ∧
    Event.resizeCall 256 256 ResampleFilter.lanczos ∉ (process_icons o fs).events ∧
    Event.savePng "icon_256.png" ∉ (process_icons o fs).events := by
  simp [process_icons, tryBlock, initSt, hfd, hdec, hico]

/-- Claim C6 (amended) witness: the disk-full ICO encoder on the sample
directory exercises every hypothesis of the amended claim. -/
theorem ico_failure_skips_png_witness :
    lookupFS fs0 "NEW-updated.png" = some (FileData.raw [1, 2, 3]) ∧
    icoFailOracle.decode (FileData.raw [1, 2, 3]) = Except.ok sampleImage ∧
    icoFailOracle.icoEncode sampleImage icon_sizes = Except.error "disk full" ∧
    ((process_icons icoFailOracle fs0).output = ["Error processing image: disk full"] ∧
    (process_icons icoFailOracle fs0).fs = fs0 ∧
    Event.resizeCall 256 256 ResampleFilter.lanczos ∉ (process_icons icoFailOracle fs0).events ∧
    Event.savePng "icon_256.png" ∉ (process_icons icoFailOracle fs0).events) :=
  ⟨rfl, rfl, rfl, ico_failure_skips_png icoFailOracle fs0 _ _ _ rfl rfl rfl⟩

/-- A successful resize yields exactly the requested dimensions, with
pixel contents produced by resampling the argument image. -/
theorem pilResize_ok (o : PILOracle) (img : Image) (w h : Nat)
    (f : ResampleFilter) (imgR : Image)
    (hres : pilResize o img w h f = Except.ok imgR) :
    imgR = { width := w, height := h, pix := o.resample img w h f } := by
  unfold pilResize at hres
  rcases hre : o.resizeExc img w h f with _ | e <;> rw [hre] at hres
  · exact (Except.ok.injEq _ _).mp hres.symm
  · exact absurd hres (by simp)

/-- Claim C1: whenever the source exists, loads, and the ICO save
succeeds, the run leaves app_icon.ico on disk holding a rendering of the
loaded source at exactly the six fixed square sizes 16, 32, 48, 64, 128,
256, in that order, and prints Generated app_icon.ico. -/
theorem generated_app_icon (o : PILOracle) (fs : FS) (fd : FileData) (img : Image)
    (hfd : lookupFS fs "NEW-updated.png" = some fd)
    (hdec : o.decode fd = Except.ok img)
    (hico : o.icoEncode img icon_sizes = Except.ok ()) :
    lookupFS (process_icons o fs).fs "app_icon.ico" =
      some (FileData.ico img icon_sizes) ∧
    icon_sizes = [(16, 16), (32, 32), (48, 48), (64, 64), (128, 128), (256, 256)] ∧
    "Generated app_icon.ico" ∈ (process_icons o fs).output := by
  refine ⟨?_, rfl, ?_⟩ <;>
  · rcases hr : pilResize o img 256 256 ResampleFilter.lanczos with e | imgR
    · simp [process_icons, tryBlock, initSt, hfd, hdec, hico, hr, lookup_write_eq]
    · rcases hp : o.pngEncode imgR with e | u
      · simp [process_icons, tryBlock, initSt, hfd, hdec, hico, hr, hp, lookup_write_eq]
      · simp [process_icons, tryBlock, initSt, hfd, hdec, hico, hr, hp,
              lookup_write_eq, lookup_write_ne _ _ _ _ ico_ne_png]

/-- Claim C1 witness: on the sample directory with the all-success
oracle, the ICO is produced as described. -/
theorem generated_app_icon_witness :
    lookupFS fs0 "NEW-updated.png" = some (FileData.raw [1, 2, 3]) ∧
    okOracle.decode (FileData.raw [1, 2, 3]) = Except.ok sampleImage ∧
    okOracle.icoEncode sampleImage icon_sizes = Except.ok () ∧
    (lookupFS (process_icons okOracle fs0).fs "app_icon.ico" =
      some (FileData.ico sampleImage icon_sizes) ∧
    icon_sizes = [(16, 16), (32, 32), (48, 48), (64, 64), (128, 128), (256, 256)] ∧
    "Generated app_icon.ico" ∈ (process_icons okOracle fs0).output) :=
  ⟨rfl, rfl, rfl, generated_app_icon okOracle fs0 _ _ rfl rfl rfl⟩

/-- Claim C2: whenever the source loads and the ICO step succeeds, and
the resize and PNG save succeed, the run leaves icon_256.png on disk
holding the source resampled with the Lanczos filter to exactly 256x256
pixels — whatever the source dimensions were — and prints Generated
icon_256.png. -/
theorem generated_icon_256 (o : PILOracle) (fs : FS) (fd : FileData)
    (img : Image) (imgR : Image)
    (hfd : lookupFS fs "NEW-updated.png" = some fd)
    (hdec : o.decode fd = Except.ok img)
    (hico : o.icoEncode img icon_sizes = Except.ok ())
    (hres : pilResize o img 256 256 ResampleFilter.lanczos = Except.ok imgR)
    (hpng : o.pngEncode imgR = Except.ok ()) :
    lookupFS (process_icons o fs).fs "icon_256.png" = some (FileData.png imgR) ∧
    imgR.width = 256 ∧ imgR.height = 256 ∧
    imgR.pix = o.resample img 256 256 ResampleFilter.lanczos ∧
    "Generated icon_256.png" ∈ (process_icons o fs).output := by
  have hsz := pilResize_ok o img 256 256 ResampleFilter.lanczos imgR hres
  refine ⟨?_, by rw [hsz], by rw [hsz], by rw [hsz], ?_⟩ <;>
    simp [process_icons, tryBlock, initSt, hfd, hdec, hico, hres, hpng,
          lookup_write_eq]

/-- Claim C2 witness: on the sample directory with the all-success
oracle, the 256x256 Lanczos PNG is produced as described (the sample
source is 800x600, non-square). -/
theorem generated_icon_256_witness :
    lookupFS fs0 "NEW-updated.png" = some (FileData.raw [1, 2, 3]) ∧
    okOracle.decode (FileData.raw [1, 2, 3]) = Except.ok sampleImage ∧
    okOracle.icoEncode sampleImage icon_sizes = Except.ok () ∧
    pilResize okOracle sampleImage 256 256 ResampleFilter.lanczos =
      Except.ok { width := 256, height := 256, pix := 519 } ∧
    okOracle.pngEncode { width := 256, height := 256, pix := 519 } = Except.ok () ∧
    (lookupFS (process_icons okOracle fs0).fs "icon_256.png" =
      some (FileData.png { width := 256, height := 256, pix := 519 }) ∧
    ({ width := 256, height := 256, pix := 519 } : Image).width = 256 ∧
    ({ width := 256, height := 256, pix := 519 } : Image).height = 256 ∧
    ({ width := 256, height := 256, pix := 519 } : Image).pix =
      okOracle.resample sampleImage 256 256 ResampleFilter.lanczos ∧
    "Generated icon_256.png" ∈ (process_icons okOracle fs0).output) :=
  ⟨rfl, rfl, rfl, rfl, rfl,
    generated_icon_256 okOracle fs0 _ _ _ rfl rfl rfl rfl rfl⟩

/-- Claim C10: once an image is loaded (and control passes the ICO
step), the 256x256 Lanczos resize is invoked unconditionally — the
source dimensions are never consulted, so a source already at 256x256 or
smaller is resized all the same, and a successful resize always yields
exactly 256x256 (upscaling small sources).  The resize produces a fresh
image: the ICO on disk still holds the original loaded image
unchanged. -/
theorem resize_unconditional (o : PILOracle) (fs : FS) (fd : FileData) (img : Image)
    (hfd : lookupFS fs "NEW-updated.png" = some fd)
    (hdec : o.decode fd = Except.ok img)
    (hico : o.icoEncode img icon_sizes = Except.ok ()) :
    Event.resizeCall 256 256 ResampleFilter.lanczos ∈ (process_icons o fs).events ∧
    lookupFS (process_icons o fs).fs "app_icon.ico" =
      some (FileData.ico img icon_sizes) ∧
    (∀ imgR, pilResize o img 256 256 ResampleFilter.lanczos = Except.ok imgR →
      imgR = { width := 256, height := 256,
               pix := o.resample img 256 256 ResampleFilter.lanczos }) := by
  refine ⟨?_, ?_, fun imgR hres => pilResize_ok o img 256 256 _ imgR hres⟩ <;>
  · rcases hr : pilResize o img 256 256 ResampleFilter.lanczos with e | imgR
    · simp [process_icons, tryBlock, initSt, hfd, hdec, hico, hr, lookup_write_eq]
    · rcases hp : o.pngEncode imgR with e | u
      · simp [process_icons, tryBlock, initSt, hfd, hdec, hico, hr, hp, lookup_write_eq]
      · simp [process_icons, tryBlock, initSt, hfd, hdec, hico, hr, hp,
              lookup_write_eq, lookup_write_ne _ _ _ _ ico_ne_png]

/-- Claim C10 witness: with a 10x10 source — strictly smaller than
256x256 — the resize is still called and its result is exactly 256x256,
and the ICO holds the untouched 10x10 original. -/
theorem resize_unconditional_witness :
    lookupFS fs0 "NEW-updated.png" = some (FileData.raw [1, 2, 3]) ∧
    smallOracle.decode (FileData.raw [1, 2, 3]) =
      Except.ok { width := 10, height := 10, pix := 3 } ∧
    smallOracle.icoEncode { width := 10, height := 10, pix := 3 } icon_sizes =
      Except.ok () ∧
    (Event.resizeCall 256 256 ResampleFilter.lanczos ∈
      (process_icons smallOracle fs0).events ∧
    lookupFS (process_icons smallOracle fs0).fs "app_icon.ico" =
      some (FileData.ico { width := 10, height := 10, pix := 3 } icon_sizes) ∧
    (∀ imgR,
      pilResize smallOracle { width := 10, height := 10, pix := 3 } 256 256
          ResampleFilter.lanczos = Except.ok imgR →
      imgR = { width := 256, height := 256,
               pix := smallOracle.resample { width := 10, height := 10, pix := 3 }
                        256 256 ResampleFilter.lanczos })) :=
  ⟨rfl, rfl, rfl, resize_unconditional smallOracle fs0 _ _ rfl rfl rfl⟩

/-- Helper for claim C4: a raise inside the try block happens before the
success print of the step that raised, so the partial output at the
raise point is either empty (decode or ICO save raised) or exactly the
ICO success line (resize or PNG save raised). -/
theorem tryBlock_error_output (o : PILOracle) (s0 : St) (fd : FileData)
    (e : String) (s : St)
    (herr : tryBlock o s0 fd = Except.error (e, s)) :
    s.output = s0.output ∨ s.output = s0.output ++ ["Generated app_icon.ico"] := by
  unfold tryBlock at herr
  rcases hd : o.decode fd with e1 | img <;> simp only [hd] at herr
  · injection herr with h
    injection h with h1 h2
    subst h2
    exact Or.inl rfl
  · rcases hi : o.icoEncode img icon_sizes with e1 | u <;> simp only [hi] at herr
    · injection herr with h
      injection h with h1 h2
      subst h2
      exact Or.inl rfl
    · rcases hr : pilResize o img 256 256 ResampleFilter.lanczos with e1 | imgR <;>
        simp only [hr] at herr
      · injection herr with h
        injection h with h1 h2
        subst h2
        exact Or.inr rfl
      · rcases hp : o.pngEncode imgR with e1 | u2 <;> simp only [hp] at herr
        · injection herr with h
          injection h with h1 h2
          subst h2
          exact Or.inr rfl
        · exact absurd herr (by simp)

/-- Claim C4: any error raised inside the try block (loading, ICO save,
resize, or PNG save) is caught at the top level; the run prints the
lines produced before the raise — none, or just the ICO success line, so
exactly one error line appears — followed by the single message Error
processing image: followed by the underlying error text, and the script
still returns normally to its caller. -/
theorem caught_error_reported (o : PILOracle) (fs : FS) (fd : FileData)
    (e : String) (s : St)
    (hfd : lookupFS fs "NEW-updated.png" = some fd)
    (herr : tryBlock o (initSt fs) fd = Except.error (e, s)) :
    (process_icons o fs).output = s.output ++ ["Error processing image: " ++ e] ∧
    (s.output = [] ∨ s.output = ["Generated app_icon.ico"]) ∧
    script_run o fs = Except.ok (process_icons o fs) := by
  refine ⟨?_, ?_, rfl⟩
  · simp [process_icons, hfd, herr]
  · have h0 := tryBlock_error_output o (initSt fs) fd e s herr
    simpa [initSt] using h0

/-- Claim C4 witness: a corrupt source raises in the decoder; the run
prints exactly the catch-all message with that error text and returns
normally. -/
theorem caught_error_reported_witness :
    lookupFS fs0 "NEW-updated.png" = some (FileData.raw [1, 2, 3]) ∧
    tryBlock decodeFailOracle (initSt fs0) (FileData.raw [1, 2, 3]) =
      Except.error ("cannot identify image file",
        { fs := fs0, output := []
          events := [Event.existsCheck "NEW-updated.png" true,
                     Event.openImage "NEW-updated.png"] }) ∧
    ((process_icons decodeFailOracle fs0).output =
      ([] : List String) ++ ["Error processing image: " ++ "cannot identify image file"] ∧
    (([] : List String) = [] ∨ ([] : List String) = ["Generated app_icon.ico"]) ∧
    script_run decodeFailOracle fs0 =
      Except.ok (process_icons decodeFailOracle fs0)) :=
  ⟨rfl, rfl, caught_error_reported decodeFailOracle fs0 _ _ _ rfl rfl⟩

/-- Claim C8: the run is deterministic (it is a function of the library
behaviour and the working directory) and idempotent: running it a second
time on the directory the first run left behind prints the same lines,
performs the same operations, and leaves the same contents at both
output paths, silently overwriting the first run's files with no new
error. -/
theorem second_run_equivalent (o : PILOracle) (fs : FS) :
    (process_icons o (process_icons o fs).fs).output = (process_icons o fs).output ∧
    (process_icons o (process_icons o fs).fs).events = (process_icons o fs).events ∧
    lookupFS (process_icons o (process_icons o fs).fs).fs "app_icon.ico" =
      lookupFS (process_icons o fs).fs "app_icon.ico" ∧
    lookupFS (process_icons o (process_icons o fs).fs).fs "icon_256.png" =
      lookupFS (process_icons o fs).fs "icon_256.png" := by
  rcases hs : lookupFS fs "NEW-updated.png" with _ | fd
  · simp [process_icons, hs]
  · rcases hd : o.decode fd with e | img
    · simp [process_icons, tryBlock, initSt, hs, hd]
    · rcases hi : o.icoEncode img icon_sizes with e | u
      · simp [process_icons, tryBlock, initSt, hs, hd, hi]
      · rcases hr : pilResize o img 256 256 ResampleFilter.lanczos with e | imgR
        · simp [process_icons, tryBlock, initSt, hs, hd, hi, hr, lookup_write_eq,
                lookup_write_ne _ _ _ _ src_ne_ico, lookup_write_ne _ _ _ _ src_ne_png,
                lookup_write_ne _ _ _ _ png_ne_ico, lookup_write_ne _ _ _ _ ico_ne_png]
        · rcases hp : o.pngEncode imgR with e | u2
          · simp [process_icons, tryBlock, initSt, hs, hd, hi, hr, hp, lookup_write_eq,
                  lookup_write_ne _ _ _ _ src_ne_ico, lookup_write_ne _ _ _ _ src_ne_png,
                  lookup_write_ne _ _ _ _ png_ne_ico, lookup_write_ne _ _ _ _ ico_ne_png]
          · simp [process_icons, tryBlock, initSt, hs, hd, hi, hr, hp, lookup_write_eq,
                  lookup_write_ne _ _ _ _ src_ne_ico, lookup_write_ne _ _ _ _ src_ne_png,
                  lookup_write_ne _ _ _ _ png_ne_ico, lookup_write_ne _ _ _ _ ico_ne_png]
